import Mathlib

/-!
Verification of the pricing/reconciliation engine of the
Calculadora-MeLi-de-Stock repository (files `utils.py` and
`data_processor.py`), shallowly embedded in Lean 4.

Modelling conventions:
* Python floats are modelled as rationals (`ℚ`); arithmetic identities that
  hold exactly in `ℚ` hold for the float code up to rounding.
* Python strings are `String` / `List Char`; `None` inputs are `Option`.
* The Python `float(str)` conversion is modelled by `pyFloatCore`, covering
  the finite decimal grammar (optional sign, digits with an optional single
  point, optional exponent) that the repository's inputs exercise;
  the `inf` / `nan` words and digit-group underscores are outside the model.
* `pandas` per-row column arithmetic is modelled row by row: every column
  operation in `calcular` is elementwise, so the whole computation is a
  `List.map` of a per-row function.
-/

namespace Calculadora

/-- The whitespace characters matched by Python's regex class whitespace and
by `str.strip()` for the ASCII range (space, tab, newline, carriage return,
vertical tab, form feed). -/
def pyIsSpace (c : Char) : Bool :=
  c = ' ' || c = '\t' || c = '\n' || c = '\r' || c = '\x0b' || c = '\x0c'

/-- Python `str.strip()` restricted to a character predicate: drop matching
characters from both ends of the character list. -/
def stripChars (p : Char → Bool) (cs : List Char) : List Char :=
  ((cs.dropWhile p).reverse.dropWhile p).reverse

/-- Numeric value of a digit string (most significant digit first). -/
def digitsToNat (ds : List Char) : Nat :=
  ds.foldl (fun n c => 10 * n + (c.toNat - '0'.toNat)) 0

/-- Split off a leading (possibly empty) run of decimal digits. -/
def takeDigits (cs : List Char) : List Char × List Char :=
  (cs.takeWhile Char.isDigit, cs.dropWhile Char.isDigit)

/-- Consume an optional leading sign; returns whether it was a minus. -/
def parseSign (cs : List Char) : Bool × List Char :=
  match cs with
  | [] => (false, [])
  | c :: rest =>
    if c = '-' then (true, rest)
    else if c = '+' then (false, rest)
    else (false, cs)

/-- Mantissa of a Python float literal: `digits [. digits]` or `. digits`,
with at least one digit overall. Returns its value and the rest. -/
def parseMantissa (cs : List Char) : Option (ℚ × List Char) :=
  let ip := (takeDigits cs).1
  let r1 := (takeDigits cs).2
  match r1 with
  | '.' :: r2 =>
    let fp := (takeDigits r2).1
    let r3 := (takeDigits r2).2
    if ip.isEmpty && fp.isEmpty then none
    else some ((digitsToNat ip : ℚ) + (digitsToNat fp : ℚ) / ((10 : ℚ) ^ fp.length), r3)
  | _ => if ip.isEmpty then none else some ((digitsToNat ip : ℚ), r1)

/-- Apply a base-10 exponent to a mantissa value. -/
def applyExp (m : ℚ) (e : ℤ) : ℚ :=
  if 0 ≤ e then m * (10 : ℚ) ^ e.toNat else m / (10 : ℚ) ^ (-e).toNat

/-- Model of Python's `float(text)` on an already-stripped character list:
optional sign, mantissa, optional exponent, and nothing may remain.
Returns `none` where Python raises `ValueError`. -/
def pyFloatCore (cs : List Char) : Option ℚ :=
  let neg := (parseSign cs).1
  let r1 := (parseSign cs).2
  match parseMantissa r1 with
  | none => none
  | some (m, r2) =>
    let er : Option (ℤ × List Char) :=
      match r2 with
      | c :: r3 =>
        if c = 'e' || c = 'E' then
          let eneg := (parseSign r3).1
          let r4 := (parseSign r3).2
          let ds := (takeDigits r4).1
          let r5 := (takeDigits r4).2
          if ds.isEmpty then none
          else some (((if eneg then -(digitsToNat ds : ℤ) else (digitsToNat ds : ℤ))), r5)
        else some (0, r2)
      | [] => some (0, [])
    match er with
    | none => none
    | some (e, r6) =>
      if r6.isEmpty then some (applyExp (if neg then -m else m) e) else none

/-- Python `float(text)` including the surrounding whitespace strip,
defaulting to `0` on failure, as used after the repository's `try/except`. -/
def pyFloatOr0 (cs : List Char) : ℚ :=
  (pyFloatCore (stripChars pyIsSpace cs)).getD 0

/-- Python `str.rfind(c)`: index of the last occurrence, `-1` if absent. -/
def rfindQ : List Char → Char → ℤ
  | [], _ => -1
  | c :: cs, d =>
    let r := rfindQ cs d
    if 0 ≤ r then r + 1 else if c = d then 0 else -1

/-- Suffix after the first comma (Python `text.split(',')[1]` when the text
has exactly one comma). -/
def trasComa (cs : List Char) : List Char :=
  (cs.dropWhile (fun c => ¬ c = ',')).tail

/-- Separator-disambiguation step of `parse_money` (utils.py lines 18-29),
acting on the text with currency symbol and whitespace already removed:
if both `,` and `.` occur, keep the rightmost as decimal point and drop the
other; if only `,` occurs, turn it into a decimal point exactly when the
text splits into two comma-parts whose second has at most two characters,
otherwise drop every comma. -/
def separadoresFuente (t : List Char) : List Char :=
  if t.contains ',' && t.contains '.' then
    if rfindQ t ',' < rfindQ t '.' then
      t.filter (fun c => ¬ c = ',')
    else
      (t.filter (fun c => ¬ c = '.')).map (fun c => if c = ',' then '.' else c)
  else if t.contains ',' then
    if t.count ',' = 1 && (trasComa t).length ≤ 2 then
      t.map (fun c => if c = ',' then '.' else c)
    else
      t.filter (fun c => ¬ c = ',')
  else t

/-- Embedding of `parse_money` (utils.py lines 6-33): strip, remove `$` and
whitespace, disambiguate separators, convert with `float`, defaulting to
`0.0` on empty or unparsable input. -/
def parse_money (s : String) : ℚ :=
  let t0 := stripChars pyIsSpace s.data
  if t0.isEmpty then 0
  else
    let t1 := t0.filter (fun c => ¬ (c = '$' || pyIsSpace c))
    (pyFloatCore (separadoresFuente t1)).getD 0

/-- Embedding of `parse_money` applied to a possibly missing value
(`pd.isna(text) or text is None` yields `0.0`). -/
def parse_money_opt : Option String → ℚ
  | none => 0
  | some s => parse_money s

/-- Embedding of `parse_pct` (utils.py lines 35-54): strip, remove `%` and
whitespace, decimal comma to point, convert; a value greater than `1` is
divided by `100`; unparsable input yields `0.0`. -/
def parse_pct (s : String) : ℚ :=
  let t0 := stripChars pyIsSpace s.data
  if t0.isEmpty then 0
  else
    let t1 := t0.filter (fun c => ¬ (c = '%' || pyIsSpace c))
    let t2 := t1.map (fun c => if c = ',' then '.' else c)
    match pyFloatCore t2 with
    | none => 0
    | some v => if 1 < v then v / 100 else v

/-- Embedding of `parse_pct` applied to a possibly missing value. -/
def parse_pct_opt : Option String → ℚ
  | none => 0
  | some s => parse_pct s

/-- Character class `[\d\.,]` of the fee-combo regexes. -/
def isFeeClass (c : Char) : Bool :=
  c.isDigit || c = '.' || c = ','

/-- Search loop for `re.search(r'([\d\.,]+)\s*%', text)`, with explicit
fuel to make the recursion structural (the scanned list shrinks by at least
one character per step, so `fuel = cs.length` always suffices). -/
def findPctGroupAux : Nat → List Char → Option (List Char)
  | 0, _ => none
  | _, [] => none
  | fuel + 1, c :: rest =>
    if isFeeClass c then
      let run := c :: rest.takeWhile isFeeClass
      let after := rest.dropWhile isFeeClass
      match after.dropWhile pyIsSpace with
      | '%' :: _ => some run
      | _ => findPctGroupAux fuel after
    else findPctGroupAux fuel rest

/-- Leftmost match of `re.search(r'([\d\.,]+)\s*%', text)`: the first maximal
run of digits, points and commas that is followed (after optional
whitespace) by `%`. Because the run class, whitespace and `%` are pairwise
disjoint, the greedy run never needs to backtrack, and a failed start
inside a run fails exactly like the run itself, so the scan may skip whole
runs. -/
def findPctGroup (cs : List Char) : Option (List Char) :=
  findPctGroupAux cs.length cs

/-- Leftmost match of `re.search(r'\$\s*([\d\.,]+)', text)`: the first `$`
followed (after optional whitespace) by a nonempty run of digits, points
and commas; the group is that run. -/
def findMoneyGroup (cs : List Char) : Option (List Char) :=
  match cs with
  | [] => none
  | c :: rest =>
    if c = '$' then
      let run := (rest.dropWhile pyIsSpace).takeWhile isFeeClass
      if run.isEmpty then findMoneyGroup rest else some run
    else findMoneyGroup rest

/-- Embedding of `parse_fee_combo` (utils.py lines 56-75): extract an
optional percentage token and an optional `$` amount token from a combined
fee string, each defaulting to `0.0`. -/
def parse_fee_combo (s : String) : ℚ × ℚ :=
  let t0 := stripChars pyIsSpace s.data
  if t0.isEmpty then (0, 0)
  else
    let pct := match findPctGroup t0 with
      | some g => parse_pct (String.mk (g ++ ['%']))
      | none => 0
    let fixed := match findMoneyGroup t0 with
      | some g => parse_money (String.mk ('$' :: g))
      | none => 0
    (pct, fixed)

/-- Embedding of `parse_fee_combo` applied to a possibly missing value. -/
def parse_fee_combo_opt : Option String → ℚ × ℚ
  | none => (0, 0)
  | some s => parse_fee_combo s

/-- Result of `calcular_precio_publicacion_ml` (utils.py lines 136-185):
listing price, commission charge, financing charge, withholding charge,
net proceeds, and the infeasible-denominator indicator. -/
structure ResultadoSolver where
  precioPublicacion : ℚ
  cargoPorVender : ℚ
  costoPorOfrecerCuotas : ℚ
  retenciones : ℚ
  recibis : ℚ
  denominadorInvalido : Bool
deriving DecidableEq, Repr

/-- Embedding of `calcular_precio_publicacion_ml` (utils.py lines 136-185).
The Python `float(x or 0.0)` coercions are identities on already-numeric
inputs, which is how the pipeline calls the function. -/
def calcular_precio_publicacion_ml
    (tarifaNeta porcentajeComision porcentajeFinanciacion porcentajeRetenciones
      costoFijo : ℚ) : ResultadoSolver :=
  let totalPorcentual := porcentajeComision + porcentajeFinanciacion + porcentajeRetenciones
  let denominador := 1 - totalPorcentual
  if denominador ≤ 0 then
    ⟨0, 0, 0, 0, 0, true⟩
  else
    let precioPublicacion := (tarifaNeta + costoFijo) / denominador
    let cargoPorVender := precioPublicacion * porcentajeComision + costoFijo
    let costoPorOfrecerCuotas := precioPublicacion * porcentajeFinanciacion
    let retenciones := precioPublicacion * porcentajeRetenciones
    let recibis := precioPublicacion -
      (cargoPorVender + costoPorOfrecerCuotas + retenciones)
    ⟨precioPublicacion, cargoPorVender, costoPorOfrecerCuotas, retenciones, recibis, false⟩

/-- Round-half-to-even to an integer, the rounding used by
`pandas.Series.round` (IEEE bankers rounding, idealized over `ℚ`). -/
def redondeoBancario (q : ℚ) : ℤ :=
  let n := q.floor
  if q - n < 1 / 2 then n
  else if 1 / 2 < q - n then n + 1
  else if n % 2 = 0 then n else n + 1

/-- Round to 2 decimal places (the pipeline's `.round(2)`). -/
def round2 (q : ℚ) : ℚ :=
  (redondeoBancario (q * 100) : ℚ) / 100

/-- Diacritic folding: the effect of NFKD-decomposing a character and
removing the combining marks, for the Latin accented letters that occur in
the shipping labels; every other character is left unchanged. -/
def quitarTilde (c : Char) : Char :=
  if c = 'á' then 'a' else if c = 'é' then 'e' else if c = 'í' then 'i'
  else if c = 'ó' then 'o' else if c = 'ú' then 'u' else if c = 'ü' then 'u'
  else if c = 'ñ' then 'n'
  else if c = 'Á' then 'A' else if c = 'É' then 'E' else if c = 'Í' then 'I'
  else if c = 'Ó' then 'O' else if c = 'Ú' then 'U' else if c = 'Ü' then 'U'
  else if c = 'Ñ' then 'N' else c

/-- Python `str.lower()` (character-wise lowercasing; the strings this is
applied to are ASCII after diacritic folding). -/
def minusculas (s : String) : String :=
  String.mk (s.data.map Char.toLower)

/-- Python `str.startswith(pre)` on character lists. -/
def empiezaCon : List Char → List Char → Bool
  | [], _ => true
  | _ :: _, [] => false
  | p :: ps, c :: cs => p = c && empiezaCon ps cs

/-- Embedding of `_normalizar_estado_envio` (data_processor.py lines
277-282): NFKD-fold diacritics away, strip, lowercase. -/
def normalizar_estado_envio (s : String) : String :=
  String.mk ((stripChars pyIsSpace (s.data.map quitarTilde)).map Char.toLower)

/-- The `estados_con_recargo` eligibility set (data_processor.py lines
285-288). -/
def estadosConRecargo : List String :=
  ["mercado envios gratis", "mercado envios por mi cuenta"]

/-- One row of the joined table that `calcular` consumes. Absent (`NaN`)
cells are `none`; whether a whole column exists in the frame is recorded in
`Esquema`. -/
structure Fila where
  notas : Option String
  precioTarifa : Option ℚ
  taxPct : Option ℚ
  shipping : Option String
  feePct : Option ℚ
  feeFixed : Option ℚ
  financingPct : Option ℚ
  retencionesPct : Option ℚ
deriving DecidableEq, Repr

/-- Which optional columns are present in the frame passed to `calcular`
(`'retenciones_pct' in df_calc.columns`, `df_calc.get('tax_pct', 0.0)`,
the shipping-column lookup, and so on). -/
structure Esquema where
  tieneNotas : Bool
  tieneTaxPct : Bool
  tieneShipping : Bool
  tieneFeePct : Bool
  tieneFeeFixed : Bool
  tieneFinancingPct : Bool
  tieneRetenciones : Bool
deriving DecidableEq, Repr

/-- The keyword options of `calcular` (data_processor.py lines 218-224). -/
structure Opciones where
  baseFinanciacion : String
  incluirImpuestos : Bool
  tipoRecargoEnvio : String
  valorRecargoEnvio : ℚ
deriving DecidableEq, Repr

/-- The joined table: a column schema plus its rows. -/
structure Tabla where
  esquema : Esquema
  filas : List Fila
deriving DecidableEq, Repr

/-- The output columns `calcular` fills for one row. -/
structure FilaCalculada where
  notasFlags : String
  precioDeTarifa : ℚ
  tarifaMasImpuestos : ℚ
  recargoPctML : ℚ
  recargoFijoML : ℚ
  cargoPorVender : ℚ
  recargoFinanciacion : ℚ
  recargoEnvio : ℚ
  retencionesML : ℚ
  recibis : ℚ
  iva : ℚ
  precioFinal : ℚ
  pctMLAplicado : ℚ
  pctFinanciacionAplicado : ℚ
deriving DecidableEq, Repr

/-- The message appended to `Notas/Flags` when the solver denominator is
not positive (data_processor.py line 357). -/
def mensajeDenominador : String :=
  "Porcentajes ML sin solución (denominador <= 0)"

/-- The effective `Notas/Flags` start value of a row: the existing cell
with `NaN` replaced by the empty string, or a fresh empty column
(data_processor.py lines 240-242). -/
def notasIniciales (es : Esquema) (f : Fila) : String :=
  if es.tieneNotas then f.notas.getD "" else ""

/-- The numeric value of `Precio de Tarifa` for a row (line 244-246). -/
def precioDeTarifaFila (f : Fila) : ℚ :=
  f.precioTarifa.getD 0

/-- The effective `tax_pct` of a row (line 248). -/
def taxPctFila (es : Esquema) (f : Fila) : ℚ :=
  if es.tieneTaxPct then f.taxPct.getD 0 else 0

/-- The effective `fee_pct` of a row (line 315). -/
def feePctFila (es : Esquema) (f : Fila) : ℚ :=
  if es.tieneFeePct then f.feePct.getD 0 else 0

/-- The effective `fee_fixed` of a row (line 316). -/
def feeFixedFila (es : Esquema) (f : Fila) : ℚ :=
  if es.tieneFeeFixed then f.feeFixed.getD 0 else 0

/-- The effective `financing_pct` of a row (line 317). -/
def financingPctFila (es : Esquema) (f : Fila) : ℚ :=
  if es.tieneFinancingPct then f.financingPct.getD 0 else 0

/-- The effective `retenciones_pct` of a row (lines 318-321). -/
def retencionesPctFila (es : Esquema) (f : Fila) : ℚ :=
  if es.tieneRetenciones then f.retencionesPct.getD 0 else 0

/-- The tax-adjusted tariff base `tarifa_neta_base` of a row
(lines 249-256). -/
def tarifaNetaBaseFila (op : Opciones) (es : Esquema) (f : Fila) : ℚ :=
  if op.incluirImpuestos then
    precioDeTarifaFila f * (1 + taxPctFila es f)
  else
    precioDeTarifaFila f

/-- Whether the shipping surcharge applies to a row (lines 269-291): the
shipping column must exist and the normalized shipping text must be in the
eligibility set. -/
def aplicaEnvioFila (es : Esquema) (f : Fila) : Bool :=
  es.tieneShipping &&
    estadosConRecargo.contains (normalizar_estado_envio (f.shipping.getD ""))

/-- The `Recargo envío ($)` amount of a row before rounding (lines
293-311): only eligible rows get a surcharge; fixed mode applies the
literal magnitude, percentage mode applies the magnitude (divided by 100
when above 1) to the tax-adjusted tariff base; a zero or missing magnitude
leaves the initialized 0. -/
def recargoEnvioFila (op : Opciones) (es : Esquema) (f : Fila) : ℚ :=
  let tipoEnvio := minusculas op.tipoRecargoEnvio
  if empiezaCon "fijo".data tipoEnvio.data ∧ op.valorRecargoEnvio ≠ 0 then
    if aplicaEnvioFila es f then op.valorRecargoEnvio else 0
  else if empiezaCon "porcentaje".data tipoEnvio.data ∧ op.valorRecargoEnvio ≠ 0 then
    if aplicaEnvioFila es f then
      tarifaNetaBaseFila op es f *
        (if 1 < op.valorRecargoEnvio then op.valorRecargoEnvio / 100
         else op.valorRecargoEnvio)
    else 0
  else 0

/-- The per-row solver target `tarifa_objetivo` (line 313). -/
def tarifaObjetivoFila (op : Opciones) (es : Esquema) (f : Fila) : ℚ :=
  tarifaNetaBaseFila op es f + recargoEnvioFila op es f

/-- The per-row solver call (lines 323-332). -/
def solverFila (op : Opciones) (es : Esquema) (f : Fila) : ResultadoSolver :=
  calcular_precio_publicacion_ml (tarifaObjetivoFila op es f) (feePctFila es f)
    (financingPctFila es f) (retencionesPctFila es f) (feeFixedFila es f)

/-- The output row of `calcular` before the final `.round(2)` pass,
following data_processor.py lines 238-370 column by column. -/
def calcularFilaBruta (op : Opciones) (es : Esquema) (f : Fila) : FilaCalculada :=
  let taxPct := taxPctFila es f
  let r := solverFila op es f
  let notas :=
    if r.denominadorInvalido then
      if notasIniciales es f = "" then mensajeDenominador
      else notasIniciales es f ++ "; " ++ mensajeDenominador
    else notasIniciales es f
  let recargoFijo := if r.denominadorInvalido then 0 else feeFixedFila es f
  let iva :=
    if 0 < taxPct then r.precioPublicacion * taxPct / (1 + taxPct) else 0
  { notasFlags := notas
    precioDeTarifa := precioDeTarifaFila f
    tarifaMasImpuestos := precioDeTarifaFila f * (1 + taxPct)
    recargoPctML := r.precioPublicacion * feePctFila es f
    recargoFijoML := recargoFijo
    cargoPorVender := r.cargoPorVender
    recargoFinanciacion := r.costoPorOfrecerCuotas
    recargoEnvio := recargoEnvioFila op es f
    retencionesML := r.retenciones
    recibis := r.recibis
    iva := iva
    precioFinal := r.precioPublicacion
    pctMLAplicado := feePctFila es f * 100
    pctFinanciacionAplicado := financingPctFila es f * 100 }

/-- The final `.round(2)` pass over every numeric output column
(data_processor.py lines 372-391); the notes column is untouched. -/
def redondearFila (b : FilaCalculada) : FilaCalculada :=
  { notasFlags := b.notasFlags
    precioDeTarifa := round2 b.precioDeTarifa
    tarifaMasImpuestos := round2 b.tarifaMasImpuestos
    recargoPctML := round2 b.recargoPctML
    recargoFijoML := round2 b.recargoFijoML
    cargoPorVender := round2 b.cargoPorVender
    recargoFinanciacion := round2 b.recargoFinanciacion
    recargoEnvio := round2 b.recargoEnvio
    retencionesML := round2 b.retencionesML
    recibis := round2 b.recibis
    iva := round2 b.iva
    precioFinal := round2 b.precioFinal
    pctMLAplicado := round2 b.pctMLAplicado
    pctFinanciacionAplicado := round2 b.pctFinanciacionAplicado }

/-- The complete per-row computation of `calcular`. -/
def calcularFila (op : Opciones) (es : Esquema) (f : Fila) : FilaCalculada :=
  redondearFila (calcularFilaBruta op es f)

/-- Embedding of `calcular` (data_processor.py lines 218-393). Every
column operation in the source is elementwise over the rows, so the whole
function is the per-row computation mapped over the row list. -/
def calcular (t : Tabla) (op : Opciones) : List FilaCalculada :=
  t.filas.map (calcularFila op t.esquema)

/-- A MercadoLibre listing row as it reaches `unir_y_validar`: the join key
and the numeric fields parsed by `leer_ml`. -/
structure FilaML where
  sku : String
  feePct : ℚ
  feeFixed : ℚ
  financingPct : ℚ
  shipping : Option String
deriving DecidableEq, Repr

/-- An Odoo catalog row as it leaves `leer_odoo`: rows are filtered to a
non-missing code, and the numeric columns were `fillna(0)`-coerced, so they
are plain rationals. -/
structure FilaOdoo where
  codigoNeored : String
  precioTarifa : ℚ
  cantidadAMano : ℚ
  taxPct : ℚ
deriving DecidableEq, Repr

/-- One row of the left-joined frame: the listing row, the matching catalog
row when the join found one (`none` encodes the all-`NaN` right side of an
unmatched row), and the `Notas/Flags` column. -/
structure FilaUnida where
  ml : FilaML
  odoo : Option FilaOdoo
  notasFlags : String
deriving DecidableEq, Repr

/-- The validation flags of one joined row (data_processor.py lines
198-214): start empty; on no catalog match write the no-match flag; when
`Precio Tarifa` is missing or zero append the missing-tariff flag; when
`Cantidad a mano` is missing append the missing-stock flag; finally
`strip('; ')`. On an unmatched row both catalog cells are `NaN`. -/
def notasValidacion (o : Option FilaOdoo) : String :=
  let sinMatch := o.isNone
  let precioFalta := match o with
    | none => true
    | some r => decide (r.precioTarifa = 0)
  let stockFalta := o.isNone
  let n0 := if sinMatch then "SKU no encontrado en Odoo" else ""
  let n1 := if precioFalta then n0 ++ "; Precio Tarifa faltante" else n0
  let n2 := if stockFalta then n1 ++ "; Stock faltante" else n1
  String.mk (stripChars (fun c => c = ';' || c = ' ') n2.data)

/-- Embedding of `unir_y_validar` (data_processor.py lines 178-216): left
join by `SKU = Código Neored` (one output row per matching catalog row, one
all-`NaN` output row when there is no match), then the validation flags. -/
def unir_y_validar (ml : List FilaML) (odoo : List FilaOdoo) : List FilaUnida :=
  ml.flatMap (fun m =>
    match odoo.filter (fun o => o.codigoNeored = m.sku) with
    | [] => [⟨m, none, notasValidacion none⟩]
    | ms => ms.map (fun o => ⟨m, some o, notasValidacion (some o)⟩))

/-- The columns of the frame returned by `leer_ml` (data_processor.py lines
91-134): the validated required columns of the marketplace export plus the
derived columns `fee_pct`, `fee_fixed` and `financing_pct`. -/
def columnasML : List String :=
  ["ITEM_ID", "SKU", "TITLE", "QUANTITY", "PRICE", "CURRENCY_ID",
   "FEE_PER_SALE_MARKETPLACE_V2", "COST_OF_FINANCING_MARKETPLACE",
   "LISTING_TYPE_V3", "SHIPPING_METHOD ", "fee_pct", "fee_fixed",
   "financing_pct"]

/-- The columns of the frame returned by `leer_odoo` (lines 139-173): the
validated required catalog columns plus the derived `tax_pct`. -/
def columnasOdoo : List String :=
  ["Código Neored", "Nombre", "Cantidad a mano", "Precio Tarifa",
   "Impuestos del cliente", "tax_pct"]

/-- The columns of the frame returned by `unir_y_validar`: both sides of
the join plus the `Notas/Flags` column it creates (no join-key column name
overlaps, so no suffix is applied). -/
def columnasUnidas : List String :=
  columnasML ++ columnasOdoo ++ ["Notas/Flags"]

/-- The `Esquema` determined by a set of column names, matching the column
lookups inside `calcular`. -/
def esquemaDeColumnas (cols : List String) : Esquema :=
  { tieneNotas := cols.contains "Notas/Flags"
    tieneTaxPct := cols.contains "tax_pct"
    tieneShipping := cols.contains "SHIPPING_METHOD " || cols.contains "SHIPPING_METHOD"
    tieneFeePct := cols.contains "fee_pct"
    tieneFeeFixed := cols.contains "fee_fixed"
    tieneFinancingPct := cols.contains "financing_pct"
    tieneRetenciones := cols.contains "retenciones_pct" }

/-- The schema of the frame that the assembled pipeline
(`leer_ml` / `leer_odoo` / `unir_y_validar`) hands to `calcular`. -/
def esquemaPipeline : Esquema :=
  esquemaDeColumnas columnasUnidas

/-- Modelled from the spec: the separator-disambiguation rule of
`parse_money` as the spec states it, with the comma-only condition amended
from the spec wording "followed by exactly 1 or 2 digits" to the condition
the code uses, "exactly one comma with at most two characters after it".
When both separators occur, the rightmost is the decimal separator and the
other is removed. -/
def separadoresSegunSpec (t : List Char) : List Char :=
  if t.contains ',' && t.contains '.' then
    let dec := if rfindQ t ',' < rfindQ t '.' then '.' else ','
    let otro := if dec = '.' then ',' else '.'
    (t.filter (fun c => ¬ c = otro)).map (fun c => if c = dec then '.' else c)
  else if t.contains ',' then
    if t.count ',' = 1 && (trasComa t).length ≤ 2 then
      t.map (fun c => if c = ',' then '.' else c)
    else t.filter (fun c => ¬ c = ',')
  else t

/-- Modelled from the spec: `parse_money` as claim C5 describes it, with
the amended comma-only condition of `separadoresSegunSpec`. -/
def parse_money_segunSpec (s : String) : ℚ :=
  let t0 := stripChars pyIsSpace s.data
  if t0.isEmpty then 0
  else
    let t1 := t0.filter (fun c => ¬ (c = '$' || pyIsSpace c))
    (pyFloatCore (separadoresSegunSpec t1)).getD 0

/-- Modelled from the spec: the separator-disambiguation rule exactly as
claim C5 words it, with the comma treated as decimal only when followed by
exactly one or two digit characters. Used to exhibit where the claim and
the code diverge. -/
def separadoresSpecLiteral (t : List Char) : List Char :=
  if t.contains ',' && t.contains '.' then
    let dec := if rfindQ t ',' < rfindQ t '.' then '.' else ','
    let otro := if dec = '.' then ',' else '.'
    (t.filter (fun c => ¬ c = otro)).map (fun c => if c = dec then '.' else c)
  else if t.contains ',' then
    if t.count ',' = 1 && ((trasComa t).length = 1 ∨ (trasComa t).length = 2)
        && (trasComa t).all Char.isDigit then
      t.map (fun c => if c = ',' then '.' else c)
    else t.filter (fun c => ¬ c = ',')
  else t

/-- Modelled from the spec: `parse_money` with the literal claim-C5
comma-only condition. -/
def parse_money_specLiteral (s : String) : ℚ :=
  let t0 := stripChars pyIsSpace s.data
  if t0.isEmpty then 0
  else
    let t1 := t0.filter (fun c => ¬ (c = '$' || pyIsSpace c))
    (pyFloatCore (separadoresSpecLiteral t1)).getD 0

/-- Modelled from the spec: `parse_pct` as claim C6 describes it — strip
`%` and whitespace, decimal comma to point, parse; a parsed value greater
than 1 is divided by 100, a value at most 1 is returned as-is, unparsable
input gives 0. -/
def parse_pct_segunSpec (s : String) : ℚ :=
  let limpio := (stripChars pyIsSpace s.data).filter
    (fun c => ¬ (c = '%' || pyIsSpace c))
  let conPunto := limpio.map (fun c => if c = ',' then '.' else c)
  match pyFloatCore conPunto with
  | none => 0
  | some v => if 1 < v then v / 100 else v

attribute [local semireducible] Rat.mul Rat.inv Rat.add Rat.sub Rat.ofScientific

/-- On a feasible fee structure the solver returns the closed-form
solution. -/
theorem solver_valido (t pc pf pr cf : ℚ) (h : 0 < 1 - (pc + pf + pr)) :
    calcular_precio_publicacion_ml t pc pf pr cf =
      ⟨(t + cf) / (1 - (pc + pf + pr)),
       (t + cf) / (1 - (pc + pf + pr)) * pc + cf,
       (t + cf) / (1 - (pc + pf + pr)) * pf,
       (t + cf) / (1 - (pc + pf + pr)) * pr,
       (t + cf) / (1 - (pc + pf + pr)) -
         ((t + cf) / (1 - (pc + pf + pr)) * pc + cf +
          (t + cf) / (1 - (pc + pf + pr)) * pf +
          (t + cf) / (1 - (pc + pf + pr)) * pr),
       false⟩ := by
  unfold calcular_precio_publicacion_ml
  rw [if_neg (by linarith)]

/-- On an infeasible fee structure the solver returns all zeros and the
failure indicator. -/
theorem solver_invalido (t pc pf pr cf : ℚ) (h : 1 ≤ pc + pf + pr) :
    calcular_precio_publicacion_ml t pc pf pr cf = ⟨0, 0, 0, 0, 0, true⟩ := by
  unfold calcular_precio_publicacion_ml
  rw [if_pos (by linarith)]

/-- `.round(2)` fixes zero. -/
theorem round2_cero : round2 0 = 0 := by decide

/-- C1. Solver round-trip: for every net target `t ≥ 0`, percentages
`pc, pf, pr ≥ 0` with `pc + pf + pr < 1`, and fixed charge `cf ≥ 0`,
`calcular_precio_publicacion_ml` returns outputs whose listing price minus
the three percentage-and-fixed deductions reproduces `t` exactly (exact in
rational arithmetic, hence within `1e-6` in floating point), and the
reported net proceeds (`recibis`) equal `t`. -/
theorem C1_solver_round_trip (t pc pf pr cf : ℚ)
    (ht : 0 ≤ t) (hpc : 0 ≤ pc) (hpf : 0 ≤ pf) (hpr : 0 ≤ pr) (hcf : 0 ≤ cf)
    (htot : pc + pf + pr < 1) :
    (calcular_precio_publicacion_ml t pc pf pr cf).precioPublicacion -
        ((calcular_precio_publicacion_ml t pc pf pr cf).cargoPorVender +
          (calcular_precio_publicacion_ml t pc pf pr cf).costoPorOfrecerCuotas +
          (calcular_precio_publicacion_ml t pc pf pr cf).retenciones) = t ∧
      (calcular_precio_publicacion_ml t pc pf pr cf).recibis = t := by
  have hden : (0:ℚ) < 1 - (pc + pf + pr) := by linarith
  rw [solver_valido t pc pf pr cf hden]
  have hne : 1 - (pc + pf + pr) ≠ 0 := ne_of_gt hden
  constructor
  · field_simp
    ring
  · show (t + cf) / (1 - (pc + pf + pr)) -
        ((t + cf) / (1 - (pc + pf + pr)) * pc + cf +
          (t + cf) / (1 - (pc + pf + pr)) * pf +
          (t + cf) / (1 - (pc + pf + pr)) * pr) = t
    field_simp
    ring

/-- Witness for C1 at the spec's end-to-end example: tariff `12513.10`,
commission `14.5%`, financing `4%`, withholding `1%`, fixed charge
`2190.0`. -/
theorem C1_solver_round_trip_witness :
    ((0:ℚ) ≤ 125131 / 10 ∧ (0:ℚ) ≤ 29 / 200 ∧ (0:ℚ) ≤ 1 / 25 ∧
      (0:ℚ) ≤ 1 / 100 ∧ (0:ℚ) ≤ 2190 ∧ (29:ℚ) / 200 + 1 / 25 + 1 / 100 < 1) ∧
    (calcular_precio_publicacion_ml (125131 / 10) (29 / 200) (1 / 25) (1 / 100)
        2190).recibis = 125131 / 10 :=
  ⟨⟨by norm_num, by norm_num, by norm_num, by norm_num, by norm_num, by norm_num⟩,
    (C1_solver_round_trip (125131 / 10) (29 / 200) (1 / 25) (1 / 100) 2190
      (by norm_num) (by norm_num) (by norm_num) (by norm_num) (by norm_num)
      (by norm_num)).2⟩

/-- C2. Solver infeasibility: whenever the three percentages sum to at
least 1, the solver returns the failure indicator and all five monetary
outputs exactly 0; in the per-row pipeline such a row gets its fixed-charge
output reset to 0 and the infeasibility message appended to its notes,
while `calcular` still processes every row independently (it is exactly the
per-row map). -/
theorem C2_solver_infeasible :
    (∀ t pc pf pr cf : ℚ, 1 ≤ pc + pf + pr →
      calcular_precio_publicacion_ml t pc pf pr cf = ⟨0, 0, 0, 0, 0, true⟩) ∧
    (∀ op es f, 1 ≤ feePctFila es f + financingPctFila es f + retencionesPctFila es f →
      (calcularFila op es f).precioFinal = 0 ∧
      (calcularFila op es f).cargoPorVender = 0 ∧
      (calcularFila op es f).recargoFinanciacion = 0 ∧
      (calcularFila op es f).retencionesML = 0 ∧
      (calcularFila op es f).recibis = 0 ∧
      (calcularFila op es f).recargoFijoML = 0 ∧
      (calcularFila op es f).notasFlags =
        (if notasIniciales es f = "" then mensajeDenominador
          else notasIniciales es f ++ "; " ++ mensajeDenominador)) ∧
    (∀ t op, calcular t op = t.filas.map (calcularFila op t.esquema)) := by
  refine ⟨fun t pc pf pr cf h => solver_invalido t pc pf pr cf h, ?_, fun t op => rfl⟩
  intro op es f h
  have hs : solverFila op es f = ⟨0, 0, 0, 0, 0, true⟩ :=
    solver_invalido _ _ _ _ _ h
  unfold calcularFila calcularFilaBruta redondearFila
  rw [hs]
  refine ⟨round2_cero, round2_cero, round2_cero, round2_cero, round2_cero,
    round2_cero, rfl⟩

/-- Witness for C2: a commission of 60%, financing of 30% and withholding
of 20% sum to 1.1 ≥ 1; the solver zeroes out, and a pipeline row carrying
those fees gets 0 outputs and the flag message. -/
theorem C2_solver_infeasible_witness :
    ((1:ℚ) ≤ 3 / 5 + 3 / 10 + 1 / 5) ∧
    calcular_precio_publicacion_ml 100 (3 / 5) (3 / 10) (1 / 5) 50 =
      ⟨0, 0, 0, 0, 0, true⟩ ∧
    ((1:ℚ) ≤
      feePctFila ⟨true, true, true, true, true, true, true⟩
          ⟨some "", some 100, none, none, some (3 / 5), some 50, some (3 / 10),
            some (1 / 5)⟩ +
        financingPctFila ⟨true, true, true, true, true, true, true⟩
          ⟨some "", some 100, none, none, some (3 / 5), some 50, some (3 / 10),
            some (1 / 5)⟩ +
        retencionesPctFila ⟨true, true, true, true, true, true, true⟩
          ⟨some "", some 100, none, none, some (3 / 5), some 50, some (3 / 10),
            some (1 / 5)⟩) ∧
    (calcularFila ⟨"tarifa", false, "Ninguno", 0⟩
          ⟨true, true, true, true, true, true, true⟩
          ⟨some "", some 100, none, none, some (3 / 5), some 50, some (3 / 10),
            some (1 / 5)⟩).recargoFijoML = 0 ∧
    (calcularFila ⟨"tarifa", false, "Ninguno", 0⟩
          ⟨true, true, true, true, true, true, true⟩
          ⟨some "", some 100, none, none, some (3 / 5), some 50, some (3 / 10),
            some (1 / 5)⟩).notasFlags =
      "Porcentajes ML sin solución (denominador <= 0)" := by
  have h1 : (1:ℚ) ≤ 3 / 5 + 3 / 10 + 1 / 5 := by norm_num
  have h2 := C2_solver_infeasible.1 100 (3 / 5) (3 / 10) (1 / 5) 50 h1
  have h3 := C2_solver_infeasible.2.1 ⟨"tarifa", false, "Ninguno", 0⟩
    ⟨true, true, true, true, true, true, true⟩
    ⟨some "", some 100, none, none, some (3 / 5), some 50, some (3 / 10),
      some (1 / 5)⟩ (by decide)
  exact ⟨h1, h2, by decide, h3.2.2.2.2.2.1, by decide⟩

/-- C3 counterexample: a listing row with no catalog match. The code also
appends the missing-stock flag (the unmatched row's on-hand quantity cell
is `NaN` after the left join), so the notes are not the two-flag string the
claim states. -/
theorem C3_counterexample :
    (unir_y_validar [⟨"NOEXISTE123", 29 / 200, 1095, 1 / 25, none⟩] []).map
        FilaUnida.notasFlags =
      ["SKU no encontrado en Odoo; Precio Tarifa faltante; Stock faltante"] ∧
    ¬ (unir_y_validar [⟨"NOEXISTE123", 29 / 200, 1095, 1 / 25, none⟩] []).map
        FilaUnida.notasFlags =
      ["SKU no encontrado en Odoo; Precio Tarifa faltante"] := by
  exact ⟨by decide, by decide⟩

/-- C3 as amended: after the left-join validation, a listing row with no
catalog match (hence missing tariff and missing stock) has notes exactly
"SKU no encontrado en Odoo; Precio Tarifa faltante; Stock faltante" —
the three flags in the fixed check order joined by "; " with the ends
trimmed. -/
theorem C3_amended (ml : List FilaML) (odoo : List FilaOdoo) (u : FilaUnida)
    (hu : u ∈ unir_y_validar ml odoo) (hnm : u.odoo = none) :
    u.notasFlags =
      "SKU no encontrado en Odoo; Precio Tarifa faltante; Stock faltante" := by
  unfold unir_y_validar at hu
  rcases List.mem_flatMap.mp hu with ⟨m, _, humem⟩
  split at humem
  · rcases List.mem_singleton.mp humem with rfl
    rfl
  · rcases List.mem_map.mp humem with ⟨o, _, rfl⟩
    simp at hnm

/-- Witness for C3 as amended: the concrete unmatched row of the
counterexample. -/
theorem C3_amended_witness :
    (⟨⟨"NOEXISTE123", 29 / 200, 1095, 1 / 25, none⟩, none,
        notasValidacion none⟩ : FilaUnida) ∈
      unir_y_validar [⟨"NOEXISTE123", 29 / 200, 1095, 1 / 25, none⟩] [] ∧
    (⟨⟨"NOEXISTE123", 29 / 200, 1095, 1 / 25, none⟩, none,
        notasValidacion none⟩ : FilaUnida).odoo = none ∧
    (⟨⟨"NOEXISTE123", 29 / 200, 1095, 1 / 25, none⟩, none,
        notasValidacion none⟩ : FilaUnida).notasFlags =
      "SKU no encontrado en Odoo; Precio Tarifa faltante; Stock faltante" :=
  ⟨by decide, rfl,
    C3_amended [⟨"NOEXISTE123", 29 / 200, 1095, 1 / 25, none⟩] [] _ (by decide) rfl⟩

/-- Stripping characters from both ends only keeps characters of the
original list. -/
theorem mem_stripChars {p : Char → Bool} {l : List Char} {c : Char}
    (h : c ∈ stripChars p l) : c ∈ l := by
  unfold stripChars at h
  rw [List.mem_reverse] at h
  have h2 := (List.dropWhile_sublist _).subset h
  rw [List.mem_reverse] at h2
  exact (List.dropWhile_sublist _).subset h2

/-- A minus-free list has a minus-free sign remainder. -/
theorem parseSign_snd_no_minus {cs : List Char} (h : '-' ∉ cs) :
    '-' ∉ (parseSign cs).2 := by
  cases cs with
  | nil => simp [parseSign]
  | cons c rest =>
    rw [List.mem_cons, not_or] at h
    simp only [parseSign]
    split_ifs
    · exact h.2
    · exact h.2
    · rw [List.mem_cons, not_or]; exact h

/-- A minus-free list parses with a positive sign. -/
theorem parseSign_fst_no_minus {cs : List Char} (h : '-' ∉ cs) :
    (parseSign cs).1 = false := by
  cases cs with
  | nil => rfl
  | cons c rest =>
    rw [List.mem_cons, not_or] at h
    simp only [parseSign]
    rw [if_neg (fun hc => h.1 hc.symm)]
    split_ifs <;> rfl

/-- A successfully parsed mantissa is non-negative. -/
theorem parseMantissa_nonneg {cs : List Char} {m : ℚ} {r : List Char}
    (h : parseMantissa cs = some (m, r)) : 0 ≤ m := by
  simp only [parseMantissa] at h
  split at h
  · split at h
    · exact absurd h (by simp)
    · simp only [Option.some.injEq, Prod.mk.injEq] at h
      rw [← h.1]
      positivity
  · split at h
    · exact absurd h (by simp)
    · simp only [Option.some.injEq, Prod.mk.injEq] at h
      rw [← h.1]
      positivity

/-- Applying a base-10 exponent preserves non-negativity. -/
theorem applyExp_nonneg {m : ℚ} (h : 0 ≤ m) (e : ℤ) : 0 ≤ applyExp m e := by
  unfold applyExp
  split
  · exact mul_nonneg h (by positivity)
  · exact div_nonneg h (by positivity)

/-- The float model returns a non-negative value on any minus-free text. -/
theorem pyFloatCore_nonneg {cs : List Char} {v : ℚ}
    (hm : '-' ∉ cs) (h : pyFloatCore cs = some v) : 0 ≤ v := by
  simp only [pyFloatCore] at h
  split at h
  · exact absurd h (by simp)
  · rename_i m r2 hmant
    split at h
    · exact absurd h (by simp)
    · rename_i e r6 _
      split at h
      · simp only [Option.some.injEq] at h
        rw [← h]
        refine applyExp_nonneg ?_ e
        rw [parseSign_fst_no_minus hm]
        simp only [Bool.false_eq_true, if_false]
        exact parseMantissa_nonneg hmant
      · exact absurd h (by simp)

/-- Filtering keeps only original characters, so it preserves the absence
of a minus sign. -/
theorem no_minus_filter {q : Char → Bool} {l : List Char} (h : '-' ∉ l) :
    '-' ∉ l.filter q :=
  fun hm => h (List.mem_of_mem_filter hm)

/-- Replacing commas by points never introduces a minus sign. -/
theorem no_minus_map_coma {l : List Char} (h : '-' ∉ l) :
    '-' ∉ l.map (fun c => if c = ',' then '.' else c) := by
  intro hm
  rcases List.mem_map.mp hm with ⟨c, hc, hceq⟩
  by_cases h1 : c = ','
  · rw [if_pos h1] at hceq
    exact absurd hceq (by decide)
  · rw [if_neg h1] at hceq
    exact h (hceq ▸ hc)

/-- The separator-disambiguation step preserves the absence of a minus
sign. -/
theorem separadoresFuente_no_minus {t : List Char} (h : '-' ∉ t) :
    '-' ∉ separadoresFuente t := by
  unfold separadoresFuente
  split
  · split
    · exact no_minus_filter h
    · exact no_minus_map_coma (no_minus_filter h)
  · split
    · split
      · exact no_minus_map_coma h
      · exact no_minus_filter h
    · exact h

/-- Defaulting an unparsable value to 0 keeps the result non-negative on
minus-free text. -/
theorem getD_pyFloatCore_nonneg {l : List Char} (h : '-' ∉ l) :
    0 ≤ (pyFloatCore l).getD 0 := by
  cases hp : pyFloatCore l with
  | none => simp
  | some v => simpa using pyFloatCore_nonneg h hp

/-- `parse_money` is non-negative on any input without a minus sign. -/
theorem parse_money_nonneg (s : String) (h : '-' ∉ s.data) :
    0 ≤ parse_money s := by
  simp only [parse_money]
  split
  · exact le_refl 0
  · exact getD_pyFloatCore_nonneg (separadoresFuente_no_minus
      (no_minus_filter (fun hm => h (mem_stripChars hm))))

/-- `parse_pct` is non-negative on any input without a minus sign. -/
theorem parse_pct_nonneg (s : String) (h : '-' ∉ s.data) :
    0 ≤ parse_pct s := by
  simp only [parse_pct]
  split
  · exact le_refl 0
  · have h1 : '-' ∉ ((stripChars pyIsSpace s.data).filter
        (fun c => ¬ (c = '%' || pyIsSpace c))).map
        (fun c => if c = ',' then '.' else c) :=
      no_minus_map_coma (no_minus_filter (fun hm => h (mem_stripChars hm)))
    cases hp : pyFloatCore (((stripChars pyIsSpace s.data).filter
        (fun c => ¬ (c = '%' || pyIsSpace c))).map
        (fun c => if c = ',' then '.' else c)) with
    | none => simp [hp]
    | some v =>
      have hv := pyFloatCore_nonneg h1 hp
      simp only [hp]
      split
      · exact div_nonneg hv (by norm_num)
      · exact hv

/-- Every character of a percentage group found by the fee-combo scan is a
digit, point or comma. -/
theorem findPctGroupAux_class {fuel : Nat} {cs g : List Char}
    (h : findPctGroupAux fuel cs = some g) : ∀ c ∈ g, isFeeClass c := by
  induction fuel generalizing cs with
  | zero => exact absurd h (by simp [findPctGroupAux])
  | succ n ih =>
    cases cs with
    | nil => exact absurd h (by simp [findPctGroupAux])
    | cons c rest =>
      simp only [findPctGroupAux] at h
      split at h
      · rename_i hc
        split at h
        · simp only [Option.some.injEq] at h
          intro x hx
          rw [← h] at hx
          rcases List.mem_cons.mp hx with rfl | hx2
          · exact hc
          · exact List.mem_takeWhile_imp hx2
        · exact ih h
      · exact ih h

/-- Every character of a money group found by the fee-combo scan is a
digit, point or comma. -/
theorem findMoneyGroup_class {cs g : List Char}
    (h : findMoneyGroup cs = some g) : ∀ c ∈ g, isFeeClass c := by
  induction cs with
  | nil => exact absurd h (by simp [findMoneyGroup])
  | cons c rest ih =>
    simp only [findMoneyGroup] at h
    split at h
    · split at h
      · exact ih h
      · simp only [Option.some.injEq] at h
        intro x hx
        rw [← h] at hx
        exact List.mem_takeWhile_imp hx
    · exact ih h

/-- C4 counterexample: `parse_money` passes a leading minus sign straight
to `float`, so a negative-signed string yields a negative value, refuting
non-negativity over arbitrary input text (`parse_pct "-5" = -5` likewise). -/
theorem C4_counterexample :
    parse_money "-5" = -5 ∧ ¬ (0 ≤ parse_money "-5") ∧
    parse_pct "-5" = -5 ∧ ¬ (0 ≤ parse_pct "-5") := by
  exact ⟨by decide, by decide, by decide, by decide⟩

/-- C4 as amended: both components of `parse_fee_combo` are non-negative
for every input (its regex groups can only capture digits, points and
commas); `parse_money` and `parse_pct` are non-negative for every input
that contains no minus sign (but can be negative on negative-signed
input); unparsable input yields 0.0 rather than an error in all three. -/
theorem C4_amended :
    (∀ s : String, '-' ∉ s.data → 0 ≤ parse_money s ∧ 0 ≤ parse_pct s) ∧
    (∀ s : String, 0 ≤ (parse_fee_combo s).1 ∧ 0 ≤ (parse_fee_combo s).2) ∧
    parse_money "abc" = 0 ∧ parse_pct "abc" = 0 ∧ parse_fee_combo "abc" = (0, 0) ∧
    parse_money_opt none = 0 ∧ parse_pct_opt none = 0 ∧
    parse_fee_combo_opt none = (0, 0) := by
  refine ⟨fun s h => ⟨parse_money_nonneg s h, parse_pct_nonneg s h⟩, ?_,
    by decide, by decide, by decide, rfl, rfl, rfl⟩
  intro s
  simp only [parse_fee_combo]
  split
  · exact ⟨le_refl 0, le_refl 0⟩
  · constructor
    · cases hg : findPctGroup (stripChars pyIsSpace s.data) with
      | none => simp [hg]
      | some g =>
        simp only [hg]
        refine parse_pct_nonneg _ (fun hm => ?_)
        have hclass := findPctGroupAux_class hg
        rcases List.mem_append.mp hm with hm1 | hm2
        · exact absurd (hclass _ hm1) (by decide)
        · rcases List.mem_singleton.mp hm2 with h
          exact absurd h (by decide)
    · cases hg : findMoneyGroup (stripChars pyIsSpace s.data) with
      | none => simp [hg]
      | some g =>
        simp only [hg]
        refine parse_money_nonneg _ (fun hm => ?_)
        have hclass := findMoneyGroup_class hg
        rcases List.mem_cons.mp hm with h1 | hm2
        · exact absurd h1 (by decide)
        · exact absurd (hclass _ hm2) (by decide)

/-- Witness for C4 as amended, at the fee string of the repository's
example data. -/
theorem C4_amended_witness :
    ('-' ∉ ("$1,095.00" : String).data) ∧ 0 ≤ parse_money "$1,095.00" ∧
    0 ≤ (parse_fee_combo "14.50% + $1095.00").1 :=
  ⟨by decide, (C4_amended.1 "$1,095.00" (by decide)).1,
    (C4_amended.2.1 "14.50% + $1095.00").1⟩

/-- Replacing points by points is the identity. -/
theorem map_punto_id (l : List Char) :
    l.map (fun c => if c = '.' then '.' else c) = l := by
  induction l with
  | nil => rfl
  | cons c cs ih =>
    by_cases h : c = '.' <;> simp [h, ih]

/-- The source separator step agrees everywhere with the spec-phrased
rightmost-separator rule (with the amended comma-only condition). -/
theorem separadores_eq (t : List Char) :
    separadoresFuente t = separadoresSegunSpec t := by
  unfold separadoresFuente separadoresSegunSpec
  by_cases h1 : t.contains ',' && t.contains '.'
  · rw [if_pos h1, if_pos h1]
    by_cases h2 : rfindQ t ',' < rfindQ t '.'
    · rw [if_pos h2]
      simp only [h2, if_true]
      exact (map_punto_id _).symm
    · rw [if_neg h2]
      simp only [h2, if_false]
      rw [if_neg (by decide)]
  · rw [if_neg h1, if_neg h1]

/-- C5 counterexample: on `"1e5,"` the code treats the trailing comma as a
decimal point (two comma-parts, second of length 0 ≤ 2) and `float`
rejects `"1e5."`, yielding `0.0`; the claim's rule (comma followed by
exactly 1-2 digits, otherwise a thousands separator) would strip the comma
and parse `"1e5"` as `100000.0`. -/
theorem C5_counterexample :
    parse_money "1e5," = 0 ∧ parse_money_specLiteral "1e5," = 100000 ∧
    ¬ parse_money "1e5," = parse_money_specLiteral "1e5," := by
  exact ⟨by decide, by decide, by decide⟩

/-- C5 as amended: `parse_money` strips currency symbols and whitespace;
when both `,` and `.` occur the rightmost is the decimal separator and the
other is removed as a thousands separator; when only `,` occurs it is
treated as the decimal separator exactly when the text contains exactly
one comma with at most two characters after it, and is otherwise removed
as a thousands separator; empty or unparsable input yields `0.0`; and the
claim's concrete examples hold. -/
theorem C5_amended :
    (∀ s : String, parse_money s = parse_money_segunSpec s) ∧
    parse_money "$1,095.00" = 1095 ∧ parse_money "1.095,50" = 2191 / 2 ∧
    parse_money "" = 0 ∧ parse_money_opt none = 0 ∧ parse_money "x97y" = 0 := by
  refine ⟨?_, by decide, by decide, by decide, rfl, by decide⟩
  intro s
  simp only [parse_money, parse_money_segunSpec, separadores_eq]

/-- C6. `parse_pct` strips `%` and whitespace, normalizes a decimal comma
to a point, parses the number, divides a parsed value greater than 1 by
100 and returns a value at most 1 as-is, with unparsable input yielding
`0.0` — it agrees everywhere with the spec-phrased normalization — and the
claim's concrete examples hold. -/
theorem C6_parse_pct :
    (∀ s : String, parse_pct s = parse_pct_segunSpec s) ∧
    parse_pct "14.50%" = 29 / 200 ∧ parse_pct "0.04" = 1 / 25 ∧
    parse_pct "4" = 1 / 25 := by
  refine ⟨?_, by decide, by decide, by decide⟩
  intro s
  simp only [parse_pct, parse_pct_segunSpec]
  by_cases h : (stripChars pyIsSpace s.data).isEmpty
  · rw [if_pos h]
    rw [List.isEmpty_iff] at h
    rw [h]
    rfl
  · rw [if_neg h]

/-- A row that is not shipping-eligible gets no surcharge, whatever the
mode and magnitude. -/
theorem recargoEnvio_no_aplica (op : Opciones) (es : Esquema) (f : Fila)
    (h : aplicaEnvioFila es f = false) : recargoEnvioFila op es f = 0 := by
  simp only [recargoEnvioFila, h, Bool.false_eq_true, if_false]
  split_ifs <;> rfl

/-- A lowercased mode string cannot start with both `fijo` and
`porcentaje`. -/
theorem fijo_no_porcentaje {l : List Char}
    (h : empiezaCon "fijo".data l = true) :
    empiezaCon "porcentaje".data l = false := by
  cases l with
  | nil => exact absurd h (by decide)
  | cons c rest =>
    have hc : c = 'f' := by
      by_contra hne
      rw [show "fijo".data = 'f' :: "ijo".data from rfl] at h
      simp only [empiezaCon, Bool.and_eq_true, decide_eq_true_eq] at h
      exact hne h.1.symm
    subst hc
    rw [show "porcentaje".data = 'p' :: "orcentaje".data from rfl]
    simp [empiezaCon]

/-- C7. Shipping-surcharge eligibility: a row whose shipping column is
absent, or whose normalized shipping text is outside the two-label
eligibility set, gets surcharge exactly 0 whatever the mode and magnitude
(also across a whole table lacking the column); an eligible row in fixed
mode gets exactly the literal magnitude; and the claim's concrete examples
hold ("Mercado Envíos por mi cuenta" with fixed 150 gives 150, "Mercado
Envíos Clásico" gives 0, a schema without the column gives 0). -/
theorem C7_recargo_envio :
    (∀ op es f, es.tieneShipping = false →
      (calcularFila op es f).recargoEnvio = 0) ∧
    (∀ op es f,
      estadosConRecargo.contains
          (normalizar_estado_envio (f.shipping.getD "")) = false →
      (calcularFila op es f).recargoEnvio = 0) ∧
    (∀ op es f, aplicaEnvioFila es f = true →
      empiezaCon "fijo".data (minusculas op.tipoRecargoEnvio).data = true →
      (calcularFila op es f).recargoEnvio = round2 op.valorRecargoEnvio) ∧
    (∀ t op, t.esquema.tieneShipping = false →
      ∀ out ∈ calcular t op, out.recargoEnvio = 0) ∧
    (calcularFila ⟨"tarifa", false, "Fijo ($)", 150⟩
        ⟨true, true, true, true, true, true, false⟩
        ⟨some "", some 100, none, some "Mercado Envíos por mi cuenta",
          some (29 / 200), some 1095, some (1 / 25), none⟩).recargoEnvio = 150 ∧
    (calcularFila ⟨"tarifa", false, "Fijo ($)", 150⟩
        ⟨true, true, true, true, true, true, false⟩
        ⟨some "", some 100, none, some "Mercado Envíos Clásico",
          some (29 / 200), some 1095, some (1 / 25), none⟩).recargoEnvio = 0 ∧
    (calcular ⟨⟨true, true, false, true, true, true, false⟩,
        [⟨some "", some 100, none, some "Mercado Envíos por mi cuenta",
          some (29 / 200), some 1095, some (1 / 25), none⟩]⟩
        ⟨"tarifa", false, "Fijo ($)", 150⟩).map FilaCalculada.recargoEnvio =
      [0] := by
  have hproj : ∀ op es f, (calcularFila op es f).recargoEnvio =
      round2 (recargoEnvioFila op es f) := fun op es f => rfl
  refine ⟨?_, ?_, ?_, ?_, by decide, by decide, by decide⟩
  · intro op es f h
    rw [hproj, recargoEnvio_no_aplica op es f
      (by unfold aplicaEnvioFila; rw [h, Bool.false_and]), round2_cero]
  · intro op es f h
    rw [hproj, recargoEnvio_no_aplica op es f
      (by unfold aplicaEnvioFila; rw [h, Bool.and_false]), round2_cero]
  · intro op es f ha hf
    rw [hproj]
    congr 1
    simp only [recargoEnvioFila, ha, if_true]
    split_ifs with h1 h2 h3
    · rfl
    · exact absurd h2.1 (by rw [fijo_no_porcentaje hf]; exact Bool.false_ne_true)
    · exact absurd h2.1 (by rw [fijo_no_porcentaje hf]; exact Bool.false_ne_true)
    · rw [not_and_or] at h1
      rcases h1 with h1 | h1
      · exact absurd hf h1
      · rw [not_not] at h1
        rw [h1]
  · intro t op h out hout
    rcases List.mem_map.mp hout with ⟨f, _, rfl⟩
    rw [hproj, recargoEnvio_no_aplica op t.esquema f
      (by unfold aplicaEnvioFila; rw [h, Bool.false_and]), round2_cero]

/-- Witness for C7: a schema without the shipping column yields surcharge
0, and an eligible row in fixed mode with magnitude 150 yields 150. -/
theorem C7_recargo_envio_witness :
    ((⟨false, false, false, false, false, false, false⟩ : Esquema).tieneShipping
        = false) ∧
    (calcularFila ⟨"tarifa", false, "Fijo ($)", 150⟩
        ⟨false, false, false, false, false, false, false⟩
        ⟨none, none, none, none, none, none, none, none⟩).recargoEnvio = 0 ∧
    aplicaEnvioFila ⟨true, true, true, true, true, true, false⟩
        ⟨some "", some 100, none, some "Mercado Envíos por mi cuenta",
          some (29 / 200), some 1095, some (1 / 25), none⟩ = true ∧
    empiezaCon "fijo".data
        (minusculas (⟨"tarifa", false, "Fijo ($)", 150⟩ :
          Opciones).tipoRecargoEnvio).data = true ∧
    (calcularFila ⟨"tarifa", false, "Fijo ($)", 150⟩
        ⟨true, true, true, true, true, true, false⟩
        ⟨some "", some 100, none, some "Mercado Envíos por mi cuenta",
          some (29 / 200), some 1095, some (1 / 25), none⟩).recargoEnvio =
      round2 150 :=
  ⟨rfl, C7_recargo_envio.1 _ _ _ rfl, by decide, by decide,
    C7_recargo_envio.2.2.1 _ _ _ (by decide) (by decide)⟩

/-- C8. The `base_financiacion` option has no observable effect: on any
joined table and any remaining options, `calcular` with `tarifa` and with
`tarifa_mas_ml` produce identical output rows in every field (the
parameter is never read in the function body). -/
theorem C8_base_financiacion (t : Tabla) (imp : Bool) (tipo : String)
    (valor : ℚ) :
    calcular t ⟨"tarifa", imp, tipo, valor⟩ =
      calcular t ⟨"tarifa_mas_ml", imp, tipo, valor⟩ := rfl

/-- C9. Tax back-calculation and rounding: the pre-round tax amount of a
row is `listing_price * tax_pct / (1 + tax_pct)` exactly when
`tax_pct > 0` and 0 otherwise (tax is extracted from inside the solved
price), and every currency-valued output field of the final row is the
2-decimal rounding of its pre-round value. -/
theorem C9_iva_redondeo (op : Opciones) (es : Esquema) (f : Fila) :
    ((calcularFilaBruta op es f).iva =
      if 0 < taxPctFila es f then
        (calcularFilaBruta op es f).precioFinal * taxPctFila es f /
          (1 + taxPctFila es f)
      else 0) ∧
    (calcularFila op es f).iva = round2 (calcularFilaBruta op es f).iva ∧
    (calcularFila op es f).precioDeTarifa =
      round2 (calcularFilaBruta op es f).precioDeTarifa ∧
    (calcularFila op es f).tarifaMasImpuestos =
      round2 (calcularFilaBruta op es f).tarifaMasImpuestos ∧
    (calcularFila op es f).recargoPctML =
      round2 (calcularFilaBruta op es f).recargoPctML ∧
    (calcularFila op es f).recargoFijoML =
      round2 (calcularFilaBruta op es f).recargoFijoML ∧
    (calcularFila op es f).cargoPorVender =
      round2 (calcularFilaBruta op es f).cargoPorVender ∧
    (calcularFila op es f).recargoFinanciacion =
      round2 (calcularFilaBruta op es f).recargoFinanciacion ∧
    (calcularFila op es f).recargoEnvio =
      round2 (calcularFilaBruta op es f).recargoEnvio ∧
    (calcularFila op es f).retencionesML =
      round2 (calcularFilaBruta op es f).retencionesML ∧
    (calcularFila op es f).recibis =
      round2 (calcularFilaBruta op es f).recibis ∧
    (calcularFila op es f).precioFinal =
      round2 (calcularFilaBruta op es f).precioFinal :=
  ⟨rfl, rfl, rfl, rfl, rfl, rfl, rfl, rfl, rfl, rfl, rfl, rfl⟩

/-- With a zero withholding percentage the solver's withholding output is
zero in both the feasible and the infeasible case. -/
theorem solver_sin_retenciones (t pc pf cf : ℚ) :
    (calcular_precio_publicacion_ml t pc pf 0 cf).retenciones = 0 := by
  simp only [calcular_precio_publicacion_ml]
  split
  · rfl
  · simp

/-- C10. Withholdings are always zero in the assembled pipeline: neither
`leer_ml`, `leer_odoo` nor `unir_y_validar` ever creates a
`retenciones_pct` column, so the pipeline schema lacks it, the solver gets
a withholding percentage of 0 for every row, and the `Retenciones ML ($)`
output is 0 for every row of every table processed with that schema. -/
theorem C10_retenciones_cero :
    columnasUnidas.contains "retenciones_pct" = false ∧
    esquemaPipeline.tieneRetenciones = false ∧
    ∀ filas op, ∀ out ∈ calcular ⟨esquemaPipeline, filas⟩ op,
      out.retencionesML = 0 := by
  refine ⟨by decide, by decide, ?_⟩
  intro filas op out hout
  rcases List.mem_map.mp hout with ⟨f, _, rfl⟩
  show round2 (solverFila op esquemaPipeline f).retenciones = 0
  have hr : retencionesPctFila esquemaPipeline f = 0 := by
    unfold retencionesPctFila
    rw [if_neg (by decide)]
  unfold solverFila
  rw [hr, solver_sin_retenciones, round2_cero]

/-- Witness for C10 at a concrete one-row table. -/
theorem C10_retenciones_cero_witness :
    (calcularFila ⟨"tarifa", false, "Ninguno", 0⟩ esquemaPipeline
        ⟨some "", some 100, some (21 / 100), some "Mercado Envíos Clásico",
          some (29 / 200), some 1095, some (1 / 25), none⟩) ∈
      calcular ⟨esquemaPipeline,
        [⟨some "", some 100, some (21 / 100), some "Mercado Envíos Clásico",
          some (29 / 200), some 1095, some (1 / 25), none⟩]⟩
        ⟨"tarifa", false, "Ninguno", 0⟩ ∧
    (calcularFila ⟨"tarifa", false, "Ninguno", 0⟩ esquemaPipeline
        ⟨some "", some 100, some (21 / 100), some "Mercado Envíos Clásico",
          some (29 / 200), some 1095, some (1 / 25), none⟩).retencionesML =
      0 :=
  ⟨by decide,
    C10_retenciones_cero.2.2
      [⟨some "", some 100, some (21 / 100), some "Mercado Envíos Clásico",
        some (29 / 200), some 1095, some (1 / 25), none⟩]
      ⟨"tarifa", false, "Ninguno", 0⟩ _ (by decide)⟩

end Calculadora
